import Mathlib

/-!
Shallow embedding of `src/server/services/estonian-validator.py`
(class `EstonianValidator`), together with theorems settling the
specification claims about it.  All machine strings are modelled as
Lean `String` (a wrapper around `List Char`); Python's dynamically
typed dictionaries become explicit structures; the linguistic tables
are embedded in their Python insertion order.
-/

namespace EstonianValidator

/-- Python `w.endswith(e)` on strings. -/
def endswith (w : String) (e : String) : Bool :=
  e.data.isSuffixOf w.data

/-- Python `needle in hay` substring containment used by `_is_case_error`. -/
def containsSub (hay needle : String) : Bool :=
  decide (needle.data <:+: hay.data)

/-- Python `s.lower()` (character-wise; the ASCII mapping suffices for the
keyword tables used here). -/
def lower (s : String) : String :=
  String.mk (s.data.map Char.toLower)

/-- Python `s.rstrip(c)` for a single strip character: removes the maximal
trailing run of `c`. -/
def rstrip (s : String) (c : Char) : String :=
  String.mk ((s.data.reverse.dropWhile (fun d => d == c)).reverse)

/-- Helper for `tokenize`: splits a character list on whitespace runs,
accumulating the current (reversed) token in the second argument. -/
def splitWs : List Char → List Char → List (List Char)
  | [], acc => if acc.isEmpty then [] else [acc.reverse]
  | c :: cs, acc =>
    if c.isWhitespace then
      if acc.isEmpty then splitWs cs [] else acc.reverse :: splitWs cs []
    else splitWs cs (c :: acc)

/-- Python `sentence.split()`: whitespace-run tokenization producing no empty
tokens. -/
def tokenize (s : String) : List String :=
  (splitWs s.data []).map String.mk

/-- Entry of the `pronoun_verb_agreement` table. -/
structure PronounEntry where
  pronoun : String
  person : Nat
  number : String
  endings : List String
deriving DecidableEq, Repr

/-- The `pronoun_verb_agreement` dictionary of the source, in insertion
order. -/
def pronoun_verb_agreement : List PronounEntry :=
  [⟨"ma", 1, "sing", ["n"]⟩,
   ⟨"sa", 2, "sing", ["d"]⟩,
   ⟨"ta", 3, "sing", ["b", "ø"]⟩,
   ⟨"me", 1, "plur", ["me"]⟩,
   ⟨"te", 2, "plur", ["te"]⟩,
   ⟨"nad", 3, "plur", ["vad", "id"]⟩]

/-- Python `word in self.pronoun_verb_agreement` (dictionary-key
membership). -/
def isPronoun (w : String) : Bool :=
  pronoun_verb_agreement.any (fun e => e.pronoun == w)

/-- Lookup `self.pronoun_verb_agreement[pronoun]['endings']` (total: the
callers only use it behind an `isPronoun` guard, as in the source). -/
def pronounEndings (w : String) : List String :=
  match pronoun_verb_agreement.find? (fun e => e.pronoun == w) with
  | some e => e.endings
  | none => []

/-- One row of `adjective_patterns`: candidate endings for the adjective and
for the noun. -/
structure AdjPattern where
  adjective : List String
  noun : List String
deriving DecidableEq, Repr

/-- The `adjective_patterns` dictionary of the source, in insertion order. -/
def adjective_patterns : List (String × AdjPattern) :=
  [("partitive", ⟨["t", "at", "ut", "et"], ["t", "i", "d", "e", "a", "u"]⟩),
   ("genitive", ⟨["ø", "a", "e"], ["i", "e", "a", "u"]⟩)]

/-- Method `_check_verb_agreement` of the source: the permissive default for
unknown pronouns, the special no-overt-suffix rule for `ta`, then the literal
ending scan skipping the `ø` sentinel. -/
def check_verb_agreement (pronoun verb : String) : Bool :=
  if !(isPronoun pronoun) then true
  else if pronoun == "ta"
      && !(["n", "d", "me", "te", "vad"].any (fun e => endswith verb e)) then true
  else (pronounEndings pronoun).any (fun e => !(e == "ø") && endswith verb e)

/-- Adjective-forming suffixes listed in `_is_adjective_noun_pair`. -/
def adj_endings : List String := ["ne", "line", "lik", "kas", "ine"]

/-- Method `_is_adjective_noun_pair`: inspects only `word1`; `word2` is
accepted but never examined, exactly as in the source. -/
def is_adjective_noun_pair (word1 word2 : String) : Bool :=
  adj_endings.any (fun e => endswith word1 e)

/-- Method `_check_case_agreement`: true when some table row matches, that is
the row's adjective-suffix set matches the adjective and the same row's
noun-suffix set matches the noun. -/
def check_case_agreement (adjective noun : String) : Bool :=
  adjective_patterns.any (fun p =>
    p.2.adjective.any (fun e => endswith adjective e)
      && p.2.noun.any (fun e => endswith noun e))

/-- Keyword list of `_is_case_error`. -/
def case_keywords : List String :=
  ["partitiiv", "genitiiv", "illatiiv", "inessiiv",
   "elatiiv", "allatiiv", "adessiiv", "ablatiiv",
   "partitivo", "genitivo", "ilativo", "inessivo",
   "caso", "requiere"]

/-- Method `_is_case_error`: purely textual on the lower-cased explanation;
the `word` parameter is accepted but unused, as in the source. -/
def is_case_error (word explanation : String) : Bool :=
  case_keywords.any (fun kw => containsSub (lower explanation) kw)

/-- One entry of the `error_details` list built by `validate_single_error`:
the three dictionary shapes appended by the source become three
constructors. -/
inductive ErrorFinding where
  | verb_agreement (word : String) (position : Nat)
  | case_agreement (words : List String) (positions : List Nat)
  | case_error (word : String) (position : Nat)
deriving DecidableEq, Repr

/-- Weight each finding adds to `error_count` in the source: the
`error_count += 1` next to a verb-agreement or case-error append, and the
`error_count += 2` next to a case-agreement append. -/
def findingWeight : ErrorFinding → Nat
  | .verb_agreement _ _ => 1
  | .case_agreement _ _ => 2
  | .case_error _ _ => 1

/-- Findings of the first loop of `validate_single_error`: for every index
whose token is a known pronoun and has a successor, a failed verb-agreement
check yields a `verb_agreement` finding at the successor position. -/
def verbFindings (words : List String) : List ErrorFinding :=
  (List.range words.length).filterMap (fun i =>
    if isPronoun (words.getD i "") then
      if i + 1 < words.length then
        if check_verb_agreement (words.getD i "") (words.getD (i + 1) "") then none
        else some (ErrorFinding.verb_agreement (words.getD (i + 1) "") (i + 1))
      else none
    else none)

/-- Findings of the second loop of `validate_single_error`: for every adjacent
pair accepted by the adjective-shape gate, a failed case-agreement check
yields a `case_agreement` finding covering both positions. -/
def caseAgreementFindings (words : List String) : List ErrorFinding :=
  (List.range (words.length - 1)).filterMap (fun i =>
    if is_adjective_noun_pair (words.getD i "") (words.getD (i + 1) "") then
      if check_case_agreement (words.getD i "") (words.getD (i + 1) "") then none
      else some (ErrorFinding.case_agreement
        [words.getD i "", words.getD (i + 1) ""] [i, i + 1])
    else none)

/-- Findings of the third block of `validate_single_error`: when `error_word`
occurs among the tokens and the explanation names a case problem, one
`case_error` finding at the first occurrence. -/
def caseErrorFindings (words : List String) (error_word explanation : String) :
    List ErrorFinding :=
  if words.contains error_word then
    if is_case_error error_word explanation then
      [ErrorFinding.case_error error_word (words.indexOf error_word)]
    else []
  else []

/-- The dictionary returned by `validate_single_error`. -/
structure ValidationVerdict where
  valid : Bool
  error_count : Nat
  errors : List ErrorFinding
  message : String
deriving DecidableEq, Repr

/-- Method `validate_single_error`.  The source appends the three groups of
findings in order and increments `error_count` by each finding's weight as it
is appended, so the final counter equals the weight sum over the `errors`
list. -/
def validate_single_error (sentence error_word explanation : String) :
    ValidationVerdict :=
  let words := tokenize sentence
  let errors := verbFindings words ++ caseAgreementFindings words
      ++ caseErrorFindings words error_word explanation
  let error_count := (errors.map findingWeight).sum
  { valid := error_count == 1
    error_count := error_count
    errors := errors
    message := if error_count == 1 then "Single error detected"
      else "Multiple errors detected: " ++ toString error_count }

/-- Method `suggest_fix`: absent when `error_word` is not a token; otherwise
dispatch on the token preceding the first occurrence when it is a known
pronoun. -/
def suggest_fix (sentence error_word : String) : Option String :=
  let words := tokenize sentence
  if words.contains error_word then
    let idx := words.indexOf error_word
    if 0 < idx then
      let pronoun := words.getD (idx - 1) ""
      if isPronoun pronoun then
        if pronoun == "ma" then some (error_word ++ "n")
        else if pronoun == "sa" then some (error_word ++ "d")
        else if pronoun == "ta" then some (rstrip (rstrip error_word 'n') 'd')
        else if pronoun == "me" then some (error_word ++ "me")
        else if pronoun == "te" then some (error_word ++ "te")
        else if pronoun == "nad" then some (error_word ++ "vad")
        else none
      else none
    else none
  else none

/-- The quote character, `U+0027`, used by the quiz sentence extraction. -/
def quoteChar : Char := Char.ofNat 39

/-- Python `re.search(r"'([^']+)'", text)` restricted to this fixed pattern:
scan start positions left to right; at a quote, the greedy nonempty run of
non-quote characters must be closed by another quote; on success return the
captured group, otherwise resume at the next position. -/
def searchQuoted : List Char → Option (List Char)
  | [] => none
  | c :: rest =>
    if c == quoteChar then
      let content := rest.takeWhile (fun d => !(d == quoteChar))
      if content.length < rest.length && 0 < content.length then some content
      else searchQuoted rest
    else searchQuoted rest

/-- One record of `quiz_data['questions']`. -/
structure QuizQuestion where
  question : String
  correctAnswer : String
  explanation : String
deriving DecidableEq, Repr

/-- The `quiz_data` dictionary: `questions` is optional because the source
reads it with `quiz_data.get('questions', [])`. -/
structure QuizData where
  questions : Option (List QuizQuestion)
deriving DecidableEq, Repr

/-- One entry of the `results` list of `analyze_error_detection_quiz`. -/
structure QuestionResult where
  question : String
  sentence : String
  error_word : String
  validation : ValidationVerdict
deriving DecidableEq, Repr

/-- The summary dictionary returned by `analyze_error_detection_quiz`. -/
structure AnalysisResult where
  total_questions : Nat
  valid_questions : Nat
  invalid_questions : Nat
  details : List QuestionResult
  all_valid : Bool
deriving DecidableEq, Repr

/-- Method `analyze_error_detection_quiz`: records without a quoted sentence
are skipped by the `continue`; each remaining record is validated and the
summary counts are derived from the collected results. -/
def analyze_error_detection_quiz (quiz_data : QuizData) : AnalysisResult :=
  let results := (quiz_data.questions.getD []).filterMap (fun q =>
    match searchQuoted q.question.data with
    | none => none
    | some content =>
      let sentence := String.mk content
      some { question := q.question
             sentence := sentence
             error_word := q.correctAnswer
             validation := validate_single_error sentence q.correctAnswer q.explanation })
  let valid_count := results.countP (fun r => r.validation.valid)
  { total_questions := results.length
    valid_questions := valid_count
    invalid_questions := results.length - valid_count
    details := results
    all_valid := valid_count == results.length }

/-- Recognizer for `verb_agreement` findings, used to state the weight law. -/
def isVerbAgreementFinding : ErrorFinding → Bool
  | .verb_agreement _ _ => true
  | _ => false

/-- Recognizer for `case_agreement` findings. -/
def isCaseAgreementFinding : ErrorFinding → Bool
  | .case_agreement _ _ => true
  | _ => false

/-- Recognizer for `case_error` findings. -/
def isCaseErrorFinding : ErrorFinding → Bool
  | .case_error _ _ => true
  | _ => false

/-- The weight sum over any finding list equals the weighted count of the
three finding categories. -/
lemma sum_findingWeight_eq (l : List ErrorFinding) :
    (l.map findingWeight).sum
      = l.countP isVerbAgreementFinding * 1
        + l.countP isCaseAgreementFinding * 2
        + l.countP isCaseErrorFinding * 1 := by
  induction l with
  | nil => simp
  | cons f t ih =>
    cases f <;>
      simp [findingWeight, isVerbAgreementFinding, isCaseAgreementFinding,
        isCaseErrorFinding, List.countP_cons, ih] <;> omega

/-- C1: for every input triple, the verdict returned by
`validate_single_error` has its `valid` field true if and only if its
`error_count` field equals 1 (hence in particular `valid` is false whenever
`error_count` is 0, 2 or 3). -/
theorem C1_valid_iff_error_count_one (sentence error_word explanation : String) :
    (validate_single_error sentence error_word explanation).valid = true
      ↔ (validate_single_error sentence error_word explanation).error_count = 1 := by
  simp [validate_single_error]

/-- C2: for every input, `error_count` equals the number of `verb_agreement`
findings times 1 plus the number of `case_agreement` findings times 2 plus
the number of `case_error` findings times 1, counted over exactly the
`errors` field of the verdict. -/
theorem C2_error_count_is_weighted_sum (sentence error_word explanation : String) :
    (validate_single_error sentence error_word explanation).error_count
      = (validate_single_error sentence error_word explanation).errors.countP
            isVerbAgreementFinding * 1
        + (validate_single_error sentence error_word explanation).errors.countP
            isCaseAgreementFinding * 2
        + (validate_single_error sentence error_word explanation).errors.countP
            isCaseErrorFinding * 1 := by
  simp only [validate_single_error]
  exact sum_findingWeight_eq _

/-- C5: `validate_single_error` is a total function (it returns a verdict on
every triple of strings, never raising), and on any sentence whose
tokenization is empty the verdict has `error_count = 0` and `valid = false`. -/
theorem C5_empty_token_list (sentence error_word explanation : String)
    (h : tokenize sentence = []) :
    (validate_single_error sentence error_word explanation).error_count = 0
      ∧ (validate_single_error sentence error_word explanation).valid = false := by
  simp [validate_single_error, h, verbFindings, caseAgreementFindings,
    caseErrorFindings]

/-- Witness for C5 at the concrete empty sentence. -/
theorem C5_empty_token_list_witness :
    (validate_single_error "" "a" "b").error_count = 0
      ∧ (validate_single_error "" "a" "b").valid = false :=
  C5_empty_token_list "" "a" "b" (by decide)

/-- C8: on sentence `ma näed raamatut` with error word `näed` and explanation
`peab olema partitiiv`, the verdict holds exactly one `verb_agreement`
finding, located at position 1 and flagging the word `näed`, and the total
`error_count` is at least 1. -/
theorem C8_scenario_ma_naed_raamatut :
    (validate_single_error "ma näed raamatut" "näed" "peab olema partitiiv").errors.countP
        isVerbAgreementFinding = 1
      ∧ ErrorFinding.verb_agreement "näed" 1
          ∈ (validate_single_error "ma näed raamatut" "näed" "peab olema partitiiv").errors
      ∧ 1 ≤ (validate_single_error "ma näed raamatut" "näed"
          "peab olema partitiiv").error_count := by
  decide

/-- C9: `check_case_agreement` treats the `ø` entry of the genitive adjective
pattern as a literal suffix: the check succeeds exactly when the partitive
row matches (adjective ends in `t`, `at`, `ut` or `et` and noun ends in `t`,
`i`, `d`, `e`, `a` or `u`) or the genitive row matches (adjective ends in the
literal character `ø`, or in `a` or `e`, and noun ends in `i`, `e`, `a` or
`u`); an adjective with no overt ending therefore never matches the genitive
row. -/
theorem C9_case_agreement_characterization (adjective noun : String) :
    check_case_agreement adjective noun = true
      ↔ ((endswith adjective "t" = true ∨ endswith adjective "at" = true
            ∨ endswith adjective "ut" = true ∨ endswith adjective "et" = true)
          ∧ (endswith noun "t" = true ∨ endswith noun "i" = true
            ∨ endswith noun "d" = true ∨ endswith noun "e" = true
            ∨ endswith noun "a" = true ∨ endswith noun "u" = true))
        ∨ ((endswith adjective "ø" = true ∨ endswith adjective "a" = true
            ∨ endswith adjective "e" = true)
          ∧ (endswith noun "i" = true ∨ endswith noun "e" = true
            ∨ endswith noun "a" = true ∨ endswith noun "u" = true)) := by
  simp [check_case_agreement, adjective_patterns, List.any_cons, List.any_nil,
    Bool.or_eq_true, Bool.and_eq_true]

/-- When `error_word` occurs among the tokens at a positive first index,
`suggest_fix` reduces to the pronoun dispatch on the preceding token. -/
lemma suggest_fix_of_prev (s ew p : String)
    (h1 : ew ∈ tokenize s) (h2 : 0 < (tokenize s).indexOf ew)
    (h3 : (tokenize s).getD ((tokenize s).indexOf ew - 1) "" = p) :
    suggest_fix s ew =
      (if isPronoun p then
        if p == "ma" then some (ew ++ "n")
        else if p == "sa" then some (ew ++ "d")
        else if p == "ta" then some (rstrip (rstrip ew 'n') 'd')
        else if p == "me" then some (ew ++ "me")
        else if p == "te" then some (ew ++ "te")
        else if p == "nad" then some (ew ++ "vad")
        else none
      else none) := by
  have hc : (tokenize s).contains ew = true := by
    simpa [List.contains] using h1
  simp only [suggest_fix, hc, if_true, h3, h2, if_pos]

/-- Membership of each of the six pronouns in the agreement table. -/
lemma isPronoun_ma : isPronoun "ma" = true := by decide

/-- Membership of `ta` in the agreement table. -/
lemma isPronoun_ta : isPronoun "ta" = true := by decide

/-- Membership of `me` in the agreement table. -/
lemma isPronoun_me : isPronoun "me" = true := by decide

/-- Membership of `te` in the agreement table. -/
lemma isPronoun_te : isPronoun "te" = true := by decide

/-- Membership of `nad` in the agreement table. -/
lemma isPronoun_nad : isPronoun "nad" = true := by decide

/-- Counterexample to C4 as stated: with sentence `ta onn` and error word
`onn`, removing a single trailing first-singular suffix would give `on`, but
`suggest_fix` returns `o` (both trailing `n` characters are removed). -/
theorem C4_counterexample :
    suggest_fix "ta onn" "onn" = some "o" ∧ ("o" : String) ≠ "on" := by
  constructor
  · decide
  · decide

/-- C4 (amended): when `error_word` occurs among the sentence's tokens and
the token immediately preceding its first occurrence is the pronoun `ta`,
`suggest_fix` returns `error_word` with its entire maximal trailing run of
`n` characters removed and then the entire maximal trailing run of `d`
characters removed from the result (so repeated suffix letters are all
stripped, not just one). -/
theorem C4_ta_strips_trailing_runs (s ew : String)
    (h1 : ew ∈ tokenize s) (h2 : 0 < (tokenize s).indexOf ew)
    (h3 : (tokenize s).getD ((tokenize s).indexOf ew - 1) "" = "ta") :
    suggest_fix s ew
      = some (String.mk (((ew.data.reverse.dropWhile (fun c => c == 'n')).dropWhile
          (fun c => c == 'd')).reverse)) := by
  rw [suggest_fix_of_prev s ew "ta" h1 h2 h3]
  simp [isPronoun_ta, rstrip]

/-- Witness for the amended C4 at the concrete input `ta onnd` / `onnd`. -/
theorem C4_ta_strips_trailing_runs_witness :
    suggest_fix "ta onnd" "onnd" = some "onn" := by
  have h := C4_ta_strips_trailing_runs "ta onnd" "onnd" (by decide) (by decide)
    (by decide)
  exact h.trans (by decide)

/-- C6: when `error_word` occurs among the tokens with preceding pronoun `ma`
(and `error_word` not already ending in `n`), `suggest_fix` appends `n`; for
`me` it appends `me`, for `te` it appends `te`, for `nad` it appends `vad`;
and when `error_word` does not occur among the tokens at all, it returns no
suggestion. -/
theorem C6_suffix_appends :
    (∀ s ew : String, ew ∈ tokenize s → 0 < (tokenize s).indexOf ew →
      (tokenize s).getD ((tokenize s).indexOf ew - 1) "" = "ma" →
      endswith ew "n" = false → suggest_fix s ew = some (ew ++ "n"))
    ∧ (∀ s ew : String, ew ∈ tokenize s → 0 < (tokenize s).indexOf ew →
      (tokenize s).getD ((tokenize s).indexOf ew - 1) "" = "me" →
      suggest_fix s ew = some (ew ++ "me"))
    ∧ (∀ s ew : String, ew ∈ tokenize s → 0 < (tokenize s).indexOf ew →
      (tokenize s).getD ((tokenize s).indexOf ew - 1) "" = "te" →
      suggest_fix s ew = some (ew ++ "te"))
    ∧ (∀ s ew : String, ew ∈ tokenize s → 0 < (tokenize s).indexOf ew →
      (tokenize s).getD ((tokenize s).indexOf ew - 1) "" = "nad" →
      suggest_fix s ew = some (ew ++ "vad"))
    ∧ (∀ s ew : String, ew ∉ tokenize s → suggest_fix s ew = none) := by
  refine ⟨?_, ?_, ?_, ?_, ?_⟩
  · intro s ew h1 h2 h3 _
    rw [suggest_fix_of_prev s ew "ma" h1 h2 h3]
    simp [isPronoun_ma]
  · intro s ew h1 h2 h3
    rw [suggest_fix_of_prev s ew "me" h1 h2 h3]
    simp [isPronoun_me]
  · intro s ew h1 h2 h3
    rw [suggest_fix_of_prev s ew "te" h1 h2 h3]
    simp [isPronoun_te]
  · intro s ew h1 h2 h3
    rw [suggest_fix_of_prev s ew "nad" h1 h2 h3]
    simp [isPronoun_nad]
  · intro s ew h1
    have hc : (tokenize s).contains ew = false := by
      simpa [List.contains] using h1
    simp only [suggest_fix, hc]
    simp

/-- Witness for C6 at concrete inputs, one per conjunct. -/
theorem C6_suffix_appends_witness :
    suggest_fix "ma laula" "laula" = some "laulan"
    ∧ suggest_fix "me laula" "laula" = some "laulame"
    ∧ suggest_fix "te laula" "laula" = some "laulate"
    ∧ suggest_fix "nad laula" "laula" = some "laulavad"
    ∧ suggest_fix "ma laulan" "x" = none := by
  refine ⟨?_, ?_, ?_, ?_, ?_⟩
  · exact (C6_suffix_appends.1 "ma laula" "laula" (by decide) (by decide)
      (by decide) (by decide)).trans (by decide)
  · exact (C6_suffix_appends.2.1 "me laula" "laula" (by decide) (by decide)
      (by decide)).trans (by decide)
  · exact (C6_suffix_appends.2.2.1 "te laula" "laula" (by decide) (by decide)
      (by decide)).trans (by decide)
  · exact (C6_suffix_appends.2.2.2.1 "nad laula" "laula" (by decide) (by decide)
      (by decide)).trans (by decide)
  · exact C6_suffix_appends.2.2.2.2 "ma laulan" "x" (by decide)

/-- Length of a `filterMap` equals the count of inputs the function keeps. -/
lemma length_filterMap_isSome {α β : Type} (f : α → Option β) (l : List α) :
    (l.filterMap f).length = l.countP (fun a => (f a).isSome) := by
  induction l with
  | nil => rfl
  | cons a t ih =>
    cases h : f a <;> simp [List.filterMap_cons, h, List.countP_cons, ih]

/-- C7: a question record whose text contains no single-quoted segment
contributes no per-question result, and `total_questions` equals the number
of records whose text does contain one (equivalently, on which the sentence
extraction succeeds). -/
theorem C7_total_questions_counts_quoted (quiz_data : QuizData) :
    (analyze_error_detection_quiz quiz_data).total_questions
        = (quiz_data.questions.getD []).countP
            (fun q => (searchQuoted q.question.data).isSome)
      ∧ (analyze_error_detection_quiz quiz_data).details.length
        = (quiz_data.questions.getD []).countP
            (fun q => (searchQuoted q.question.data).isSome) := by
  have key : ∀ l : List QuizQuestion,
      (l.filterMap (fun q =>
        match searchQuoted q.question.data with
        | none => none
        | some content =>
          let sentence := String.mk content
          some { question := q.question
                 sentence := sentence
                 error_word := q.correctAnswer
                 validation := validate_single_error sentence q.correctAnswer
                   q.explanation : QuestionResult })).length
        = l.countP (fun q => (searchQuoted q.question.data).isSome) := by
    intro l
    rw [length_filterMap_isSome]
    apply List.countP_congr
    intro q _
    cases h : searchQuoted q.question.data <;> simp [h]
  constructor
  · simpa [analyze_error_detection_quiz] using key (quiz_data.questions.getD [])
  · simpa [analyze_error_detection_quiz] using key (quiz_data.questions.getD [])

/-- C10: on a quiz whose question list is missing, empty, or made only of
records without a single-quoted segment, the analysis reports zero totals, an
empty details list, and `all_valid = true`. -/
theorem C10_vacuous_quiz_all_valid (quiz_data : QuizData)
    (h : ∀ q ∈ quiz_data.questions.getD [], searchQuoted q.question.data = none) :
    (analyze_error_detection_quiz quiz_data).total_questions = 0
      ∧ (analyze_error_detection_quiz quiz_data).valid_questions = 0
      ∧ (analyze_error_detection_quiz quiz_data).invalid_questions = 0
      ∧ (analyze_error_detection_quiz quiz_data).details = []
      ∧ (analyze_error_detection_quiz quiz_data).all_valid = true := by
  have hnil : (quiz_data.questions.getD []).filterMap (fun q =>
      match searchQuoted q.question.data with
      | none => none
      | some content =>
        let sentence := String.mk content
        some { question := q.question
               sentence := sentence
               error_word := q.correctAnswer
               validation := validate_single_error sentence q.correctAnswer
                 q.explanation : QuestionResult }) = [] := by
    rw [List.filterMap_eq_nil_iff]
    intro q hq
    rw [h q hq]
  simp [analyze_error_detection_quiz, hnil]

/-- Witness for C10 at a concrete quiz holding one unquoted record. -/
theorem C10_vacuous_quiz_all_valid_witness :
    (analyze_error_detection_quiz
        ⟨some [⟨"no quoted segment", "x", "y"⟩]⟩).total_questions = 0
      ∧ (analyze_error_detection_quiz
        ⟨some [⟨"no quoted segment", "x", "y"⟩]⟩).valid_questions = 0
      ∧ (analyze_error_detection_quiz
        ⟨some [⟨"no quoted segment", "x", "y"⟩]⟩).invalid_questions = 0
      ∧ (analyze_error_detection_quiz
        ⟨some [⟨"no quoted segment", "x", "y"⟩]⟩).details = []
      ∧ (analyze_error_detection_quiz
        ⟨some [⟨"no quoted segment", "x", "y"⟩]⟩).all_valid = true :=
  C10_vacuous_quiz_all_valid ⟨some [⟨"no quoted segment", "x", "y"⟩]⟩ (by decide)

/-- Every `verb_agreement` finding of the first loop sits at a successor
position whose predecessor token is a known pronoun. -/
lemma verb_finding_pronoun {words : List String} {v : String} {p : Nat}
    (h : ErrorFinding.verb_agreement v p ∈ verbFindings words) :
    ∃ i, p = i + 1 ∧ isPronoun (words.getD i "") = true := by
  simp only [verbFindings, List.mem_filterMap] at h
  obtain ⟨i, _, hf⟩ := h
  refine ⟨i, ?_⟩
  split_ifs at hf with h1 h2 h3 <;> simp_all

/-- Every `case_agreement` finding of the second loop covers an adjacent pair
whose first token passes the adjective-shape gate. -/
lemma case_finding_adjective {words : List String} {ws : List String}
    {ps : List Nat} (h : ErrorFinding.case_agreement ws ps ∈ caseAgreementFindings words) :
    ∃ i, ps = [i, i + 1]
      ∧ is_adjective_noun_pair (words.getD i "") (words.getD (i + 1) "") = true := by
  simp only [caseAgreementFindings, List.mem_filterMap] at h
  obtain ⟨i, _, hf⟩ := h
  refine ⟨i, ?_⟩
  split_ifs at hf with h1 h2 <;> simp_all

/-- The second loop emits only `case_agreement` findings. -/
lemma verb_not_in_caseAgreementFindings {words : List String} {v : String}
    {p : Nat} : ErrorFinding.verb_agreement v p ∉ caseAgreementFindings words := by
  intro h
  simp only [caseAgreementFindings, List.mem_filterMap] at h
  obtain ⟨i, _, hf⟩ := h
  split_ifs at hf <;> simp_all

/-- The third block emits only `case_error` findings. -/
lemma verb_not_in_caseErrorFindings {words : List String}
    {error_word explanation v : String} {p : Nat} :
    ErrorFinding.verb_agreement v p ∉ caseErrorFindings words error_word explanation := by
  intro h
  simp only [caseErrorFindings] at h
  split_ifs at h <;> simp_all

/-- The first loop emits only `verb_agreement` findings. -/
lemma caseAgr_not_in_verbFindings {words : List String} {ws : List String}
    {ps : List Nat} : ErrorFinding.case_agreement ws ps ∉ verbFindings words := by
  intro h
  simp only [verbFindings, List.mem_filterMap] at h
  obtain ⟨i, _, hf⟩ := h
  split_ifs at hf <;> simp_all

/-- The third block never emits a `case_agreement` finding. -/
lemma caseAgr_not_in_caseErrorFindings {words : List String}
    {error_word explanation : String} {ws : List String} {ps : List Nat} :
    ErrorFinding.case_agreement ws ps ∉ caseErrorFindings words error_word explanation := by
  intro h
  simp only [caseErrorFindings] at h
  split_ifs at h <;> simp_all

/-- No known pronoun ends with any of the adjective-forming suffixes, so a
token can never satisfy both gates at once. -/
lemma isPronoun_not_adjective_shape (w w2 : String) (hw : isPronoun w = true) :
    is_adjective_noun_pair w w2 = false := by
  have hcases : w = "ma" ∨ w = "sa" ∨ w = "ta" ∨ w = "me" ∨ w = "te" ∨ w = "nad" := by
    simp only [isPronoun, pronoun_verb_agreement, List.any_cons, List.any_nil,
      Bool.or_eq_true, beq_iff_eq] at hw
    tauto
  have expand : ∀ u : String, is_adjective_noun_pair u w2
      = adj_endings.any (fun e => endswith u e) := fun u => rfl
  rcases hcases with h | h | h | h | h | h <;> subst h <;> rw [expand] <;> decide

/-- Core impossibility behind C3: the aggregated error list never holds, for
the same adjacent pair, a `verb_agreement` finding at the second position and
a `case_agreement` finding over both positions. -/
lemma no_verb_and_case_on_same_pair (s ew ex : String) (i : Nat) (v : String)
    (ws : List String)
    (hv : ErrorFinding.verb_agreement v (i + 1)
      ∈ (validate_single_error s ew ex).errors)
    (hc : ErrorFinding.case_agreement ws [i, i + 1]
      ∈ (validate_single_error s ew ex).errors) : False := by
  simp only [validate_single_error, List.mem_append] at hv hc
  have hv' : ErrorFinding.verb_agreement v (i + 1) ∈ verbFindings (tokenize s) := by
    rcases hv with (h | h) | h
    · exact h
    · exact absurd h verb_not_in_caseAgreementFindings
    · exact absurd h verb_not_in_caseErrorFindings
  have hc' : ErrorFinding.case_agreement ws [i, i + 1]
      ∈ caseAgreementFindings (tokenize s) := by
    rcases hc with (h | h) | h
    · exact absurd h caseAgr_not_in_verbFindings
    · exact h
    · exact absurd h caseAgr_not_in_caseErrorFindings
  obtain ⟨j, hj, hpron⟩ := verb_finding_pronoun hv'
  obtain ⟨k, hk, hadj⟩ := case_finding_adjective hc'
  have hji : j = i := by omega
  have hki : k = i := by
    have := List.cons.injEq i [i + 1] k [k + 1] ▸ hk
    simp at hk
    omega
  subst hji
  subst hki
  rw [isPronoun_not_adjective_shape _ _ hpron] at hadj
  exact absurd hadj (by simp)

/-- Counterexample to C3 as stated: no input whatsoever makes
`validate_single_error` emit, for the same adjacent token pair, both a
`verb_agreement` finding at position `i + 1` and a `case_agreement` finding
covering positions `i` and `i + 1`. -/
theorem C3_counterexample :
    ¬ ∃ (s ew ex : String) (i : Nat) (v : String) (ws : List String),
        ErrorFinding.verb_agreement v (i + 1)
            ∈ (validate_single_error s ew ex).errors
          ∧ ErrorFinding.case_agreement ws [i, i + 1]
            ∈ (validate_single_error s ew ex).errors := by
  rintro ⟨s, ew, ex, i, v, ws, hv, hc⟩
  exact no_verb_and_case_on_same_pair s ew ex i v ws hv hc

/-- Overlap detector for the amended C3: does the verdict hold both a
`verb_agreement` finding and a `case_agreement` finding on the same adjacent
pair of positions? -/
def overlapping_pair_findings (v : ValidationVerdict) : Bool :=
  v.errors.any (fun f1 => v.errors.any (fun f2 =>
    match f1, f2 with
    | .verb_agreement _ p, .case_agreement _ ps => p != 0 && ps == [p - 1, p]
    | _, _ => false))

/-- C3 (amended): the aggregator performs no de-duplication, but the overlap
the claim describes is unrealizable — on every input the verdict holds no
`verb_agreement` finding and `case_agreement` finding over the same adjacent
token pair, because no known pronoun ends with an adjective-shape suffix. -/
theorem C3_no_overlapping_pair (s ew ex : String) :
    overlapping_pair_findings (validate_single_error s ew ex) = false := by
  rw [Bool.eq_false_iff]
  intro h
  simp only [overlapping_pair_findings, List.any_eq_true] at h
  obtain ⟨f1, hf1, f2, hf2, hm⟩ := h
  cases f1 with
  | verb_agreement w p =>
    cases f2 with
    | case_agreement ws ps =>
      simp only [Bool.and_eq_true, bne_iff_ne, beq_iff_eq] at hm
      obtain ⟨hp, hps⟩ := hm
      obtain ⟨q, rfl⟩ : ∃ q, p = q + 1 := ⟨p - 1, by omega⟩
      simp only [Nat.add_sub_cancel] at hps
      rw [hps] at hf2
      exact no_verb_and_case_on_same_pair s ew ex q w ws hf1 hf2
    | verb_agreement _ _ => simp at hm
    | case_error _ _ => simp at hm
  | case_agreement ws ps => simp at hm
  | case_error _ _ => simp at hm

end EstonianValidator
